import Mathlib

/-
Verification of the Cosine-similarity change-detection service (src/app.py).

The repository is a single Flask application exposing POST /calculate_similarity.
Its core function `get_nasa_similarity_for_location` fetches satellite rasters
from the NASA GIBS WMS endpoint for a target date and for 7 days prior, scores
their cosine similarity over flattened 100x100 resized pixel arrays, and falls
back once to a raster 14 days prior when the first score is below the threshold.

Shallow embedding: the external collaborators (datetime.strptime, requests.get
plus raise_for_status, plt.imread, skimage resize, numpy flatten/reshape, and
sklearn cosine_similarity) are fields of an `Env` record; dates are day numbers
(an `Int`), so `timedelta(days = 7)` is subtraction of 7; image buffers, decoded
images and vectors are opaque values carried as `Nat`; floats are modelled as
rationals (0.75 and 0.5 are exact in binary floating point, so the comparisons
in the source are faithfully mirrored).  Each embedded function additionally
returns the list of outbound HTTP requests it issued, in order, so that claims
about the number and the parameters of the network calls are statable.
-/

namespace CosineSim

/-- One parameterized GET request to the NASA GIBS WMS service, as assembled in
`base_params` / `params1` / `params2_week` / `params2_two_weeks` in src/app.py.
The BBOX string is modelled as the 4-tuple of rational coordinates it renders
(minLng, minLat, maxLng, maxLat); WIDTH and HEIGHT keep the literal strings of
the source; TIME is the day number the date string renders. -/
structure FetchRequest where
  service : String
  request : String
  version : String
  layers : String
  format : String
  crs : String
  bbox : ℚ × ℚ × ℚ × ℚ
  width : String
  height : String
  time : Int
  deriving DecidableEq, Repr

/-- The external collaborators of src/app.py, one field per library call:
`parseDate` is `datetime.strptime(date_str, "%Y-%m-%d")` returning the day
number (None on ValueError); `fetch` is `requests.get` followed by
`raise_for_status`, returning the response content or the exception text;
`imread` is `plt.imread` on the buffer; `resize100` is
`skimage.transform.resize(img, (100, 100), anti_aliasing=True)`; `flatten` is
`.flatten().reshape(1, -1)`; `cosine_similarity` is sklearn's metric followed by
the `float(sim[0][0])` scalar extraction. -/
structure Env where
  parseDate : String → Option Int
  fetch : FetchRequest → Except String Nat
  imread : Nat → Nat
  resize100 : Nat → Nat
  flatten : Nat → Nat
  cosine_similarity : Nat → Nat → ℚ

/-- The request dictionary built at src/app.py lines 37-47 (`base_params`), with
the TIME parameter appended as in `params1 = base_params.copy();
params1["TIME"] = ...`.  `delta = 0.5` and
`bbox_str = f"(lng-delta),(lat-delta),(lng+delta),(lat+delta)"` from lines
34-35 become the rational 4-tuple. -/
def base_params (lat lng : ℚ) (t : Int) : FetchRequest :=
  { service := "WMS"
    request := "GetMap"
    version := "1.3.0"
    layers := "MODIS_Terra_CorrectedReflectance_TrueColor"
    format := "image/png"
    crs := "EPSG:4326"
    bbox := (lng - 1/2, lat - 1/2, lng + 1/2, lat + 1/2)
    width := "1024"
    height := "1024"
    time := t }

/-- The decode / resize / vectorize pipeline applied identically to each fetched
buffer in src/app.py (lines 66-73 and 94-96): `plt.imread`, then
`resize(img, (100, 100), anti_aliasing=True)`, then `.flatten().reshape(1, -1)`. -/
def pixelVec (env : Env) (buffer : Nat) : Nat :=
  env.flatten (env.resize100 (env.imread buffer))

/-- Embedding of `get_nasa_similarity_for_location` (src/app.py lines 18-101).
Returns the `(score, error)` pair of the source together with the list of
outbound requests issued, in order.  Logging calls are side effects with no
bearing on the result and are not modelled. -/
def get_nasa_similarity_for_location (env : Env) (lat lng : ℚ) (date_str : String)
    (threshold : ℚ := 3/4) : (Option ℚ × Option String) × List FetchRequest :=
  match env.parseDate date_str with
  | none =>
      ((none, some "Invalid date format. Please use YYYY-MM-DD."), [])
  | some date1_obj =>
      let params1 := base_params lat lng date1_obj
      match env.fetch params1 with
      | .error e =>
          ((none, some ("Could not retrieve images from NASA. Error: " ++ e)), [params1])
      | .ok image1_buffer =>
          let params2_week := base_params lat lng (date1_obj - 7)
          match env.fetch params2_week with
          | .error e =>
              ((none, some ("Could not retrieve images from NASA. Error: " ++ e)),
                [params1, params2_week])
          | .ok image2_buffer_week =>
              let vec1 := pixelVec env image1_buffer
              let vec2_week := pixelVec env image2_buffer_week
              let score := env.cosine_similarity vec1 vec2_week
              if score < threshold then
                let params2_two_weeks := base_params lat lng (date1_obj - 14)
                match env.fetch params2_two_weeks with
                | .error _ =>
                    ((some score, none), [params1, params2_week, params2_two_weeks])
                | .ok image2_buffer_two_weeks =>
                    let vec2_two_weeks := pixelVec env image2_buffer_two_weeks
                    ((some (env.cosine_similarity vec1 vec2_two_weeks), none),
                      [params1, params2_week, params2_two_weeks])
              else
                ((some score, none), [params1, params2_week])

/-- The JSON body accepted by POST /calculate_similarity.  A field holds `none`
when it is absent from the body; `lat`, `lng` and `threshold` are modelled after
the `float(...)` conversion succeeded (conversion failure takes the same 400
path as a missing field and is not distinguished by any claim). -/
structure ApiRequest where
  lat : Option ℚ
  lng : Option ℚ
  date_str : Option String
  threshold : Option ℚ

/-- The JSON body of a response from `calculate_similarity_api`.  The
human-readable `message` field of the 200 body interpolates the score with
float formatting and carries no further information; it is not modelled. -/
inductive ResponseBody where
  | ok (status : String) (similarity_score : ℚ) (threshold_used : ℚ)
  | err (error : String)
  deriving DecidableEq, Repr

/-- Embedding of the handler `calculate_similarity_api` (src/app.py lines
106-160).  Returns the `(http_status, body)` pair together with the outbound
requests issued by the core call.  The source guards `if error_message:` by
truthiness; the core only ever produces `None` or a nonempty message, so this
is the match on the option.  The Python 400 message interpolates
`required_fields`; its list rendering is kept as plain text. -/
def calculate_similarity_api (env : Env) (data : Option ApiRequest) :
    (Nat × ResponseBody) × List FetchRequest :=
  match data with
  | none => ((400, .err "Invalid request. Must be JSON."), [])
  | some d =>
      match d.lat, d.lng, d.date_str with
      | some lat, some lng, some date_str =>
          let threshold := d.threshold.getD (3/4)
          match get_nasa_similarity_for_location env lat lng date_str threshold with
          | ((score_opt, error_message), trace) =>
              match error_message with
              | some e => ((502, .err e), trace)
              | none =>
                  match score_opt with
                  | some score =>
                      let status :=
                        if score = 1 then "IDENTICAL"
                        else if score < threshold then "SIGNIFICANT_CHANGE_DETECTED"
                        else "NO_SIGNIFICANT_CHANGE"
                      ((200, .ok status score threshold), trace)
                  | none =>
                      ((500, .err "An unknown error occurred during processing."), trace)
      | _, _, _ =>
          ((400, .err "Missing one or more required fields: [lat, lng, date_str]"), [])

/-! Concrete environments used to exhibit each behavior on a concrete run.
Day 19584 is 2023-08-15 (the example coordinate and date of the spec), so the
week prior is day 19577 and two weeks prior is day 19570.  Buffers, images and
vectors are tagged by small numbers and the pixel pipeline is the identity. -/

/-- A run in which every fetch succeeds and every pair of vectors scores 1. -/
def envAllOk : Env :=
  { parseDate := fun s => if s = "2023-08-15" then some 19584 else none
    fetch := fun _ => .ok 5
    imread := id
    resize100 := id
    flatten := id
    cosine_similarity := fun _ _ => 1 }

/-- A run in which the target, week-prior and two-week-prior fetches all
succeed (buffers 1, 2, 3), the week-prior comparison scores 1/2 (below the
default threshold 3/4) and the two-week-prior comparison scores 9/10. -/
def envFallbackOk : Env :=
  { parseDate := fun s => if s = "2023-08-15" then some 19584 else none
    fetch := fun r =>
      if r.time = 19584 then .ok 1
      else if r.time = 19577 then .ok 2
      else if r.time = 19570 then .ok 3
      else .error "404 Client Error"
    imread := id
    resize100 := id
    flatten := id
    cosine_similarity := fun _ b => if b = 3 then 9/10 else 1/2 }

/-- A run in which the two initial fetches succeed (buffers 1, 2), every
comparison scores 1/2 (below the default threshold) and the two-week fallback
fetch fails. -/
def envFallbackDown : Env :=
  { parseDate := fun s => if s = "2023-08-15" then some 19584 else none
    fetch := fun r =>
      if r.time = 19584 then .ok 1
      else if r.time = 19577 then .ok 2
      else .error "connection timed out"
    imread := id
    resize100 := id
    flatten := id
    cosine_similarity := fun _ _ => 1/2 }

/-- A run in which every fetch fails. -/
def envNoNetwork : Env :=
  { parseDate := fun s => if s = "2023-08-15" then some 19584 else none
    fetch := fun _ => .error "503 Server Error"
    imread := id
    resize100 := id
    flatten := id
    cosine_similarity := fun _ _ => 1 }

/-! Helper lemmas characterizing each control path of the embedded functions. -/

/-- When the date does not parse, the core fails immediately with the fixed
message and no request is issued. -/
theorem get_nasa_parse_fail (env : Env) (lat lng th : ℚ) (ds : String)
    (hparse : env.parseDate ds = none) :
    get_nasa_similarity_for_location env lat lng ds th =
      ((none, some "Invalid date format. Please use YYYY-MM-DD."), []) := by
  simp only [get_nasa_similarity_for_location, hparse]

/-- When the first fetch fails, the core fails with the fetch error message
after issuing exactly that one request. -/
theorem get_nasa_fetch1_fail (env : Env) (lat lng th : ℚ) (ds : String) (d : Int)
    (e : String)
    (hparse : env.parseDate ds = some d)
    (hf1 : env.fetch (base_params lat lng d) = .error e) :
    get_nasa_similarity_for_location env lat lng ds th =
      ((none, some ("Could not retrieve images from NASA. Error: " ++ e)),
        [base_params lat lng d]) := by
  simp only [get_nasa_similarity_for_location, hparse, hf1]

/-- When the first fetch succeeds and the week-prior fetch fails, the core
fails with the fetch error message after issuing exactly those two requests. -/
theorem get_nasa_fetch2_fail (env : Env) (lat lng th : ℚ) (ds : String) (d : Int)
    (b1 : Nat) (e : String)
    (hparse : env.parseDate ds = some d)
    (hf1 : env.fetch (base_params lat lng d) = .ok b1)
    (hf2 : env.fetch (base_params lat lng (d - 7)) = .error e) :
    get_nasa_similarity_for_location env lat lng ds th =
      ((none, some ("Could not retrieve images from NASA. Error: " ++ e)),
        [base_params lat lng d, base_params lat lng (d - 7)]) := by
  simp only [get_nasa_similarity_for_location, hparse, hf1, hf2]

/-- When the date parses and both initial fetches succeed with a score at or
above the threshold, the core returns that score and issues exactly the two
initial requests. -/
theorem get_nasa_no_fallback (env : Env) (lat lng th : ℚ) (ds : String) (d : Int)
    (b1 b2 : Nat)
    (hparse : env.parseDate ds = some d)
    (hf1 : env.fetch (base_params lat lng d) = .ok b1)
    (hf2 : env.fetch (base_params lat lng (d - 7)) = .ok b2)
    (hscore : ¬ env.cosine_similarity (pixelVec env b1) (pixelVec env b2) < th) :
    get_nasa_similarity_for_location env lat lng ds th =
      ((some (env.cosine_similarity (pixelVec env b1) (pixelVec env b2)), none),
        [base_params lat lng d, base_params lat lng (d - 7)]) := by
  simp only [get_nasa_similarity_for_location, hparse, hf1, hf2, if_neg hscore]

/-- When the date parses, both initial fetches succeed and the score is below
the threshold, the core issues exactly one fallback request for the date two
weeks prior, then returns the fallback comparison on success and the
already-computed week-prior score on failure. -/
theorem get_nasa_fallback_path (env : Env) (lat lng th : ℚ) (ds : String) (d : Int)
    (b1 b2 : Nat)
    (hparse : env.parseDate ds = some d)
    (hf1 : env.fetch (base_params lat lng d) = .ok b1)
    (hf2 : env.fetch (base_params lat lng (d - 7)) = .ok b2)
    (hscore : env.cosine_similarity (pixelVec env b1) (pixelVec env b2) < th) :
    get_nasa_similarity_for_location env lat lng ds th =
      ((match env.fetch (base_params lat lng (d - 14)) with
        | .error _ => some (env.cosine_similarity (pixelVec env b1) (pixelVec env b2))
        | .ok b3 => some (env.cosine_similarity (pixelVec env b1) (pixelVec env b3)), none),
        [base_params lat lng d, base_params lat lng (d - 7), base_params lat lng (d - 14)]) := by
  simp only [get_nasa_similarity_for_location, hparse, hf1, hf2, if_pos hscore]
  cases env.fetch (base_params lat lng (d - 14)) <;> rfl

/-- The handler maps a successful core result to the 200 body with the status
derived from the score, echoing the score and the threshold. -/
theorem api_of_score (env : Env) (lat lng th score : ℚ) (ds : String)
    (trace : List FetchRequest)
    (h : get_nasa_similarity_for_location env lat lng ds th = ((some score, none), trace)) :
    calculate_similarity_api env (some ⟨some lat, some lng, some ds, some th⟩) =
      ((200, .ok (if score = 1 then "IDENTICAL"
          else if score < th then "SIGNIFICANT_CHANGE_DETECTED"
          else "NO_SIGNIFICANT_CHANGE") score th), trace) := by
  unfold calculate_similarity_api
  simp only [Option.getD_some, h]

/-- The handler maps a core error to a 502 response carrying the error text. -/
theorem api_of_error (env : Env) (lat lng th : ℚ) (ds msg : String)
    (trace : List FetchRequest)
    (h : get_nasa_similarity_for_location env lat lng ds th = ((none, some msg), trace)) :
    calculate_similarity_api env (some ⟨some lat, some lng, some ds, some th⟩) =
      ((502, .err msg), trace) := by
  unfold calculate_similarity_api
  simp only [Option.getD_some, h]

/-- Every invocation of the core yields exactly one of a score and an error:
never both, never neither. -/
theorem get_nasa_exclusive (env : Env) (lat lng th : ℚ) (ds : String) :
    ((get_nasa_similarity_for_location env lat lng ds th).1.1 = none ∧
      (get_nasa_similarity_for_location env lat lng ds th).1.2 ≠ none) ∨
    ((get_nasa_similarity_for_location env lat lng ds th).1.1 ≠ none ∧
      (get_nasa_similarity_for_location env lat lng ds th).1.2 = none) := by
  rcases h1 : env.parseDate ds with _ | d
  · rw [get_nasa_parse_fail env lat lng th ds h1]; simp
  · rcases h2 : env.fetch (base_params lat lng d) with e | b1
    · rw [get_nasa_fetch1_fail env lat lng th ds d e h1 h2]; simp
    · rcases h3 : env.fetch (base_params lat lng (d - 7)) with e | b2
      · rw [get_nasa_fetch2_fail env lat lng th ds d b1 e h1 h2 h3]; simp
      · by_cases h4 : env.cosine_similarity (pixelVec env b1) (pixelVec env b2) < th
        · rw [get_nasa_fallback_path env lat lng th ds d b1 b2 h1 h2 h3 h4]
          cases env.fetch (base_params lat lng (d - 14)) <;> simp
        · rw [get_nasa_no_fallback env lat lng th ds d b1 b2 h1 h2 h3 h4]; simp

/-- Every request the core sends is `base_params lat lng t` for some date `t`:
in particular it carries the fixed bounding box and the fixed 1024x1024 size. -/
theorem trace_requests_shape (env : Env) (lat lng th : ℚ) (ds : String)
    (r : FetchRequest) (hr : r ∈ (get_nasa_similarity_for_location env lat lng ds th).2) :
    ∃ t, r = base_params lat lng t := by
  rcases h1 : env.parseDate ds with _ | d
  · rw [get_nasa_parse_fail env lat lng th ds h1] at hr; simp at hr
  · rcases h2 : env.fetch (base_params lat lng d) with e | b1
    · rw [get_nasa_fetch1_fail env lat lng th ds d e h1 h2] at hr
      simp at hr; exact ⟨d, hr⟩
    · rcases h3 : env.fetch (base_params lat lng (d - 7)) with e | b2
      · rw [get_nasa_fetch2_fail env lat lng th ds d b1 e h1 h2 h3] at hr
        simp at hr
        rcases hr with h | h
        · exact ⟨d, h⟩
        · exact ⟨d - 7, h⟩
      · by_cases h4 : env.cosine_similarity (pixelVec env b1) (pixelVec env b2) < th
        · rw [get_nasa_fallback_path env lat lng th ds d b1 b2 h1 h2 h3 h4] at hr
          simp at hr
          rcases hr with h | h | h
          · exact ⟨d, h⟩
          · exact ⟨d - 7, h⟩
          · exact ⟨d - 14, h⟩
        · rw [get_nasa_no_fallback env lat lng th ds d b1 b2 h1 h2 h3 h4] at hr
          simp at hr
          rcases hr with h | h
          · exact ⟨d, h⟩
          · exact ⟨d - 7, h⟩

/-! Claims. -/

/-- C1: For every request where both initial fetches succeed, the week-prior
similarity score is strictly below the threshold, and the two-week fallback
fetch fails, the core returns the already-computed week-prior score with no
error, and the endpoint responds 200 (not an error response). -/
theorem claim1_fallback_failure_degrades_to_week_score (env : Env) (lat lng th : ℚ)
    (ds e : String) (d : Int) (b1 b2 : Nat)
    (hparse : env.parseDate ds = some d)
    (hf1 : env.fetch (base_params lat lng d) = .ok b1)
    (hf2 : env.fetch (base_params lat lng (d - 7)) = .ok b2)
    (hscore : env.cosine_similarity (pixelVec env b1) (pixelVec env b2) < th)
    (hf3 : env.fetch (base_params lat lng (d - 14)) = .error e) :
    (get_nasa_similarity_for_location env lat lng ds th).1 =
      (some (env.cosine_similarity (pixelVec env b1) (pixelVec env b2)), none) ∧
    (calculate_similarity_api env (some ⟨some lat, some lng, some ds, some th⟩)).1.1 = 200 := by
  have hcore : get_nasa_similarity_for_location env lat lng ds th =
      ((some (env.cosine_similarity (pixelVec env b1) (pixelVec env b2)), none),
        [base_params lat lng d, base_params lat lng (d - 7), base_params lat lng (d - 14)]) := by
    rw [get_nasa_fallback_path env lat lng th ds d b1 b2 hparse hf1 hf2 hscore, hf3]
  exact ⟨by rw [hcore], by rw [api_of_score env lat lng th _ ds _ hcore]⟩

/-- Concrete run of claim1 at the example coordinate of the spec: score 1/2 is
below the default threshold, the fallback fetch times out, and 1/2 is returned
with a 200 response. -/
theorem claim1_witness :
    (get_nasa_similarity_for_location envFallbackDown (-34653/10000) (-622159/10000)
        "2023-08-15" (3/4)).1 = (some (1/2), none) ∧
    (calculate_similarity_api envFallbackDown
      (some ⟨some (-34653/10000), some (-622159/10000), some "2023-08-15",
        some (3/4)⟩)).1.1 = 200 := by
  have h := claim1_fallback_failure_degrades_to_week_score envFallbackDown
    (-34653/10000) (-622159/10000) (3/4) "2023-08-15" "connection timed out" 19584 1 2
    rfl rfl rfl (by norm_num [envFallbackDown, pixelVec]) rfl
  exact ⟨by rw [h.1]; rfl, h.2⟩

/-- C2: For every invocation where the week-prior score is strictly below the
threshold and the two-week fallback fetch succeeds, the returned score is
exactly the cosine similarity between the target-date vector and the
two-week-prior vector (the week-prior score is replaced, not averaged), and
exactly one fallback attempt is made — the trace is exactly the three requests,
and the second score is returned as-is with no condition on its value. -/
theorem claim2_fallback_success_replaces_score (env : Env) (lat lng th : ℚ)
    (ds : String) (d : Int) (b1 b2 b3 : Nat)
    (hparse : env.parseDate ds = some d)
    (hf1 : env.fetch (base_params lat lng d) = .ok b1)
    (hf2 : env.fetch (base_params lat lng (d - 7)) = .ok b2)
    (hscore : env.cosine_similarity (pixelVec env b1) (pixelVec env b2) < th)
    (hf3 : env.fetch (base_params lat lng (d - 14)) = .ok b3) :
    get_nasa_similarity_for_location env lat lng ds th =
      ((some (env.cosine_similarity (pixelVec env b1) (pixelVec env b3)), none),
        [base_params lat lng d, base_params lat lng (d - 7),
          base_params lat lng (d - 14)]) := by
  rw [get_nasa_fallback_path env lat lng th ds d b1 b2 hparse hf1 hf2 hscore, hf3]

/-- Concrete run of claim2: the week-prior comparison scores 1/2, the fallback
succeeds and its score 9/10 replaces 1/2; exactly three requests are issued. -/
theorem claim2_witness :
    get_nasa_similarity_for_location envFallbackOk 0 0 "2023-08-15" (3/4) =
      ((some (9/10), none),
        [base_params 0 0 19584, base_params 0 0 19577, base_params 0 0 19570]) := by
  have h := claim2_fallback_success_replaces_score envFallbackOk 0 0 (3/4) "2023-08-15"
    19584 1 2 3 rfl rfl rfl (by norm_num [envFallbackOk, pixelVec]) rfl
  rw [h]; rfl

/-- C3: For every valid request where both required fetches succeed and the
week-prior score is at or above the threshold, no fallback fetch occurs
(exactly the two initial requests are made) and the response status is
NO_SIGNIFICANT_CHANGE, or IDENTICAL exactly when the score equals 1. -/
theorem claim3_above_threshold_no_fallback (env : Env) (lat lng th : ℚ) (ds : String)
    (d : Int) (b1 b2 : Nat)
    (hparse : env.parseDate ds = some d)
    (hf1 : env.fetch (base_params lat lng d) = .ok b1)
    (hf2 : env.fetch (base_params lat lng (d - 7)) = .ok b2)
    (hscore : th ≤ env.cosine_similarity (pixelVec env b1) (pixelVec env b2)) :
    get_nasa_similarity_for_location env lat lng ds th =
      ((some (env.cosine_similarity (pixelVec env b1) (pixelVec env b2)), none),
        [base_params lat lng d, base_params lat lng (d - 7)]) ∧
    (calculate_similarity_api env (some ⟨some lat, some lng, some ds, some th⟩)).1 =
      (200, .ok (if env.cosine_similarity (pixelVec env b1) (pixelVec env b2) = 1
            then "IDENTICAL" else "NO_SIGNIFICANT_CHANGE")
        (env.cosine_similarity (pixelVec env b1) (pixelVec env b2)) th) := by
  have hlt : ¬ env.cosine_similarity (pixelVec env b1) (pixelVec env b2) < th :=
    not_lt.mpr hscore
  have hcore := get_nasa_no_fallback env lat lng th ds d b1 b2 hparse hf1 hf2 hlt
  refine ⟨hcore, ?_⟩
  rw [api_of_score env lat lng th _ ds _ hcore, if_neg hlt]

/-- Concrete run of claim3: both fetches succeed, the score is 1 (at or above
the threshold 3/4), only two requests are made and the status is IDENTICAL. -/
theorem claim3_witness :
    get_nasa_similarity_for_location envAllOk 0 0 "2023-08-15" (3/4) =
      ((some 1, none), [base_params 0 0 19584, base_params 0 0 19577]) ∧
    (calculate_similarity_api envAllOk
      (some ⟨some 0, some 0, some "2023-08-15", some (3/4)⟩)).1 =
      (200, .ok "IDENTICAL" 1 (3/4)) := by
  have h := claim3_above_threshold_no_fallback envAllOk 0 0 (3/4) "2023-08-15" 19584 5 5
    rfl rfl rfl (by norm_num [envAllOk, pixelVec])
  exact ⟨by rw [h.1]; rfl, by rw [h.2]; rfl⟩

/-- Counterexample for C4: on a malformed date string the endpoint answers with
HTTP status 502 carrying the invalid-date message — it reaches the same error
branch as upstream fetch failures, not a 400 validation response. -/
theorem claim4_counterexample :
    (calculate_similarity_api envAllOk
      (some ⟨some 0, some 0, some "2024/01/01", none⟩)).1 =
      (502, .err "Invalid date format. Please use YYYY-MM-DD.") ∧
    (calculate_similarity_api envAllOk
      (some ⟨some 0, some 0, some "2024/01/01", none⟩)).1.1 ≠ 400 :=
  ⟨rfl, by decide⟩

/-- C4 (amended): For every request whose date string does not parse as
YYYY-MM-DD, the core returns the invalid-date error immediately with zero
network calls made, and the endpoint surfaces it as a 502 error response
carrying that message (the branch shared with upstream fetch failures),
not a 400. -/
theorem claim4_invalid_date_502 (env : Env) (lat lng th : ℚ) (ds : String)
    (hparse : env.parseDate ds = none) :
    get_nasa_similarity_for_location env lat lng ds th =
      ((none, some "Invalid date format. Please use YYYY-MM-DD."), []) ∧
    (calculate_similarity_api env (some ⟨some lat, some lng, some ds, some th⟩)).1 =
      (502, .err "Invalid date format. Please use YYYY-MM-DD.") ∧
    (calculate_similarity_api env (some ⟨some lat, some lng, some ds, some th⟩)).2 = [] := by
  have hcore := get_nasa_parse_fail env lat lng th ds hparse
  have happ := api_of_error env lat lng th ds _ _ hcore
  exact ⟨hcore, by rw [happ], by rw [happ]⟩

/-- Concrete run of the amended claim4 on the malformed date 2024/01/01. -/
theorem claim4_witness :
    get_nasa_similarity_for_location envAllOk 0 0 "2024/01/01" (3/4) =
      ((none, some "Invalid date format. Please use YYYY-MM-DD."), []) ∧
    (calculate_similarity_api envAllOk
      (some ⟨some 0, some 0, some "2024/01/01", some (3/4)⟩)).1 =
      (502, .err "Invalid date format. Please use YYYY-MM-DD.") ∧
    (calculate_similarity_api envAllOk
      (some ⟨some 0, some 0, some "2024/01/01", some (3/4)⟩)).2 = [] :=
  claim4_invalid_date_502 envAllOk 0 0 (3/4) "2024/01/01" rfl

/-- C5: For every invocation where either of the two initial fetches fails, the
core returns no score and the descriptive error message with no retry (the
trace is the one or two requests issued once each), and the endpoint surfaces
this as a 502 response carrying the error text. -/
theorem claim5_initial_fetch_failure_502 (env : Env) (lat lng th : ℚ) (ds e : String)
    (d : Int)
    (hparse : env.parseDate ds = some d)
    (hfail : env.fetch (base_params lat lng d) = .error e ∨
      ((∃ b1, env.fetch (base_params lat lng d) = .ok b1) ∧
        env.fetch (base_params lat lng (d - 7)) = .error e)) :
    (get_nasa_similarity_for_location env lat lng ds th).1 =
      (none, some ("Could not retrieve images from NASA. Error: " ++ e)) ∧
    ((get_nasa_similarity_for_location env lat lng ds th).2 = [base_params lat lng d] ∨
      (get_nasa_similarity_for_location env lat lng ds th).2 =
        [base_params lat lng d, base_params lat lng (d - 7)]) ∧
    (calculate_similarity_api env (some ⟨some lat, some lng, some ds, some th⟩)).1 =
      (502, .err ("Could not retrieve images from NASA. Error: " ++ e)) := by
  rcases hfail with h1 | ⟨⟨b1, hok⟩, h2⟩
  · have hcore := get_nasa_fetch1_fail env lat lng th ds d e hparse h1
    exact ⟨by rw [hcore], Or.inl (by rw [hcore]),
      by rw [api_of_error env lat lng th ds _ _ hcore]⟩
  · have hcore := get_nasa_fetch2_fail env lat lng th ds d b1 e hparse hok h2
    exact ⟨by rw [hcore], Or.inr (by rw [hcore]),
      by rw [api_of_error env lat lng th ds _ _ hcore]⟩

/-- Concrete run of claim5: the very first fetch fails with a 503 and the
endpoint answers 502 with the error text. -/
theorem claim5_witness :
    (get_nasa_similarity_for_location envNoNetwork 0 0 "2023-08-15" (3/4)).1 =
      (none, some "Could not retrieve images from NASA. Error: 503 Server Error") ∧
    ((get_nasa_similarity_for_location envNoNetwork 0 0 "2023-08-15" (3/4)).2 =
        [base_params 0 0 19584] ∨
      (get_nasa_similarity_for_location envNoNetwork 0 0 "2023-08-15" (3/4)).2 =
        [base_params 0 0 19584, base_params 0 0 19577]) ∧
    (calculate_similarity_api envNoNetwork
      (some ⟨some 0, some 0, some "2023-08-15", some (3/4)⟩)).1 =
      (502, .err "Could not retrieve images from NASA. Error: 503 Server Error") := by
  have h := claim5_initial_fetch_failure_502 envNoNetwork 0 0 (3/4) "2023-08-15"
    "503 Server Error" 19584 rfl (Or.inl rfl)
  exact ⟨by rw [h.1]; rfl, h.2.1, by rw [h.2.2]; rfl⟩

/-- C6: For every successful comparison, the 200 response's status field is
derived from the final score as: IDENTICAL if the score equals 1; otherwise
SIGNIFICANT_CHANGE_DETECTED if the score is below the threshold; otherwise
NO_SIGNIFICANT_CHANGE; and the response body carries the final score as
similarity_score and the threshold as threshold_used. -/
theorem claim6_status_derivation (env : Env) (lat lng th score : ℚ) (ds : String)
    (trace : List FetchRequest)
    (h : get_nasa_similarity_for_location env lat lng ds th = ((some score, none), trace)) :
    (calculate_similarity_api env (some ⟨some lat, some lng, some ds, some th⟩)).1 =
      (200, .ok (if score = 1 then "IDENTICAL"
          else if score < th then "SIGNIFICANT_CHANGE_DETECTED"
          else "NO_SIGNIFICANT_CHANGE") score th) := by
  rw [api_of_score env lat lng th score ds trace h]

/-- Concrete run of claim6 exercising the SIGNIFICANT_CHANGE_DETECTED branch:
the final score 1/2 is below the threshold 3/4 and is echoed in the body. -/
theorem claim6_witness :
    (calculate_similarity_api envFallbackDown
      (some ⟨some 0, some 0, some "2023-08-15", some (3/4)⟩)).1 =
      (200, .ok "SIGNIFICANT_CHANGE_DETECTED" (1/2) (3/4)) := by
  have hcore : get_nasa_similarity_for_location envFallbackDown 0 0 "2023-08-15" (3/4) =
      ((some (1/2), none),
        [base_params 0 0 19584, base_params 0 0 19577, base_params 0 0 19570]) := by
    rw [get_nasa_fallback_path envFallbackDown 0 0 (3/4) "2023-08-15" 19584 1 2
      rfl rfl rfl (by norm_num [envFallbackDown, pixelVec]),
      show envFallbackDown.fetch (base_params 0 0 (19584 - 14)) =
        .error "connection timed out" from rfl]
    rfl
  have h := claim6_status_derivation envFallbackDown 0 0 (3/4) (1/2) "2023-08-15"
    [base_params 0 0 19584, base_params 0 0 19577, base_params 0 0 19570] hcore
  rw [h]
  norm_num

/-- C7: Every invocation of the core produces exactly one of the score and the
error — never both and never neither — so the handler's generic 500 branch is
unreachable: no request whatsoever is answered with status 500. -/
theorem claim7_exactly_one_outcome (env : Env) (lat lng th : ℚ) (ds : String) :
    (((get_nasa_similarity_for_location env lat lng ds th).1.1 = none ∧
       (get_nasa_similarity_for_location env lat lng ds th).1.2 ≠ none) ∨
     ((get_nasa_similarity_for_location env lat lng ds th).1.1 ≠ none ∧
       (get_nasa_similarity_for_location env lat lng ds th).1.2 = none)) ∧
    ∀ data : Option ApiRequest, (calculate_similarity_api env data).1.1 ≠ 500 := by
  refine ⟨get_nasa_exclusive env lat lng th ds, ?_⟩
  intro data
  rcases data with _ | d
  · simp [calculate_similarity_api]
  · rcases d with ⟨lat0, lng0, ds0, th0⟩
    rcases lat0 with _ | lat0
    · simp [calculate_similarity_api]
    · rcases lng0 with _ | lng0
      · simp [calculate_similarity_api]
      · rcases ds0 with _ | ds0
        · simp [calculate_similarity_api]
        · have hex := get_nasa_exclusive env lat0 lng0 (th0.getD (3/4)) ds0
          rcases hres : get_nasa_similarity_for_location env lat0 lng0 ds0
            (th0.getD (3/4)) with ⟨⟨sc0, er0⟩, t0⟩
          rw [hres] at hex
          unfold calculate_similarity_api
          dsimp only
          rw [hres]
          rcases er0 with _ | e0
          · rcases sc0 with _ | v0
            · simp at hex
            · simp
          · simp

/-- C8: When the optional threshold field is omitted, the endpoint behaves
exactly as if the threshold 3/4 had been sent, and whenever the response is a
200 body its threshold_used field is exactly 3/4. -/
theorem claim8_default_threshold (env : Env) (lat lng : ℚ) (ds : String) :
    calculate_similarity_api env (some ⟨some lat, some lng, some ds, none⟩) =
      calculate_similarity_api env (some ⟨some lat, some lng, some ds, some (3/4)⟩) ∧
    ∀ s sc tu, (calculate_similarity_api env
        (some ⟨some lat, some lng, some ds, none⟩)).1.2 =
      ResponseBody.ok s sc tu → tu = 3/4 := by
  refine ⟨rfl, ?_⟩
  intro s sc tu h
  rcases hres : get_nasa_similarity_for_location env lat lng ds (3/4) with ⟨⟨sc0, er0⟩, t0⟩
  unfold calculate_similarity_api at h
  dsimp only at h
  simp only [Option.getD_none] at h
  rw [hres] at h
  rcases er0 with _ | e0
  · rcases sc0 with _ | v0
    · simp at h
    · dsimp only at h
      injection h with h1 h2 h3
      exact h3.symm
  · simp at h

/-- Concrete run of claim8: with the threshold field absent the 200 body
reports threshold_used 3/4. -/
theorem claim8_witness :
    (calculate_similarity_api envAllOk
      (some ⟨some 0, some 0, some "2023-08-15", none⟩)).1.2 =
      ResponseBody.ok "IDENTICAL" 1 (3/4) ∧ (3/4 : ℚ) = 3/4 := by
  have hcore : get_nasa_similarity_for_location envAllOk 0 0 "2023-08-15" (3/4) =
      ((some 1, none), [base_params 0 0 19584, base_params 0 0 19577]) := by
    rw [get_nasa_no_fallback envAllOk 0 0 (3/4) "2023-08-15" 19584 5 5 rfl rfl rfl
      (by norm_num [envAllOk, pixelVec])]
    rfl
  have hok : (calculate_similarity_api envAllOk
      (some ⟨some 0, some 0, some "2023-08-15", none⟩)).1.2 =
      ResponseBody.ok "IDENTICAL" 1 (3/4) := by
    rw [(claim8_default_threshold envAllOk 0 0 "2023-08-15").1,
      api_of_score envAllOk 0 0 (3/4) 1 "2023-08-15" _ hcore]
    norm_num
  exact ⟨hok, (claim8_default_threshold envAllOk 0 0 "2023-08-15").2 "IDENTICAL" 1 (3/4) hok⟩

/-- C9: Every request the run sends to the map service carries the bounding box
(lng - 1/2, lat - 1/2, lng + 1/2, lat + 1/2) and the fixed 1024x1024 output
size; in particular the two initial requests use this identical bounding box
and size. -/
theorem claim9_bbox_and_size (env : Env) (lat lng th : ℚ) (ds : String)
    (r : FetchRequest)
    (hr : r ∈ (get_nasa_similarity_for_location env lat lng ds th).2) :
    r.bbox = (lng - 1/2, lat - 1/2, lng + 1/2, lat + 1/2) ∧
    r.width = "1024" ∧ r.height = "1024" := by
  obtain ⟨t, rfl⟩ := trace_requests_shape env lat lng th ds r hr
  exact ⟨rfl, rfl, rfl⟩

/-- Concrete run of claim9 on the first request of a two-fetch run. -/
theorem claim9_witness :
    base_params 0 0 19584 ∈
      (get_nasa_similarity_for_location envAllOk 0 0 "2023-08-15" (3/4)).2 ∧
    (base_params 0 0 19584).bbox = (0 - 1/2, 0 - 1/2, 0 + 1/2, 0 + 1/2) ∧
    (base_params 0 0 19584).width = "1024" ∧
    (base_params 0 0 19584).height = "1024" := by
  have htr : (get_nasa_similarity_for_location envAllOk 0 0 "2023-08-15" (3/4)).2 =
      [base_params 0 0 19584, base_params 0 0 19577] := by
    rw [get_nasa_no_fallback envAllOk 0 0 (3/4) "2023-08-15" 19584 5 5 rfl rfl rfl
      (by norm_num [envAllOk, pixelVec])]
    rfl
  have hmem : base_params 0 0 19584 ∈
      (get_nasa_similarity_for_location envAllOk 0 0 "2023-08-15" (3/4)).2 := by
    rw [htr]
    exact List.mem_cons_self _ _
  exact ⟨hmem, claim9_bbox_and_size envAllOk 0 0 (3/4) "2023-08-15" _ hmem⟩

/-- C10: Whenever the fallback is reached, the fallback fetch request has
parameters identical to the primary request — same service, layer, format,
CRS, bounding box and 1024x1024 size — differing only in the TIME parameter,
which is the target date minus 14 days. -/
theorem claim10_fallback_params (env : Env) (lat lng th : ℚ) (ds : String) (d : Int)
    (b1 b2 : Nat)
    (hparse : env.parseDate ds = some d)
    (hf1 : env.fetch (base_params lat lng d) = .ok b1)
    (hf2 : env.fetch (base_params lat lng (d - 7)) = .ok b2)
    (hscore : env.cosine_similarity (pixelVec env b1) (pixelVec env b2) < th) :
    (get_nasa_similarity_for_location env lat lng ds th).2 =
      [base_params lat lng d, base_params lat lng (d - 7),
        { base_params lat lng d with time := d - 14 }] := by
  rw [get_nasa_fallback_path env lat lng th ds d b1 b2 hparse hf1 hf2 hscore]
  rfl

/-- Concrete run of claim10: the third request equals the first with only the
TIME parameter moved back 14 days. -/
theorem claim10_witness :
    (get_nasa_similarity_for_location envFallbackOk 1 2 "2023-08-15" (3/4)).2 =
      [base_params 1 2 19584, base_params 1 2 19577,
        { base_params 1 2 19584 with time := 19570 }] := by
  have h := claim10_fallback_params envFallbackOk 1 2 (3/4) "2023-08-15" 19584 1 2
    rfl rfl rfl (by norm_num [envFallbackOk, pixelVec])
  rw [h]
  rfl

end CosineSim
